import Mathlib

/-!
Shallow embedding of the `CSVLogger` buffered event sink from
`src/input_tracker.cpp` (the core component of the input-tracker
repository), together with theorems settling the specification claims
about it.

Modelling choices:
* `InputEvent` mirrors the C++ `struct InputEvent` (string tag, ms
  timestamp, 2D integer position, unsigned key code).
* The logger state is `(running flag, FIFO queue, file contents, live
  background-thread count)`.  The backing-store file is the list of
  chunks written to it, in order; its real byte content is the
  concatenation of those chunks.
* File-system success/failure is an explicit boolean input (`openOk`)
  to the operations that open the file, since the C++ code branches
  (or fails to branch) on `ofstream` open success.
* The background flush thread of `flushThreadFunc` is modelled on
  discrete ticks by `flushThreadLoop` for the temporal claim.
-/

/-- Mirror of the C++ `struct InputEvent`: `eventType` is the string tag,
`timestamp` the `DWORD` millisecond counter, `(x, y)` the `POINT`
coordinates (signed `LONG`), `keyCode` the `UINT` key/button code. -/
structure InputEvent where
  eventType : String
  timestamp : Nat
  x : Int
  y : Int
  keyCode : Nat
  deriving Repr, DecidableEq

/-- State of one `CSVLogger` object: the `m_running` atomic flag, the
`m_eventQueue` FIFO (head of the list = front of the queue), the backing
CSV file as the ordered list of chunks written to it, and the number of
live background flush threads. -/
structure LoggerState where
  running : Bool
  queue : List InputEvent
  file : List String
  threads : Nat
  deriving Repr, DecidableEq

/-- The header record written by `CSVLogger::start`:
`ofs << "timestamp_ms,event_type,x,y,key_code\n"`. -/
def headerLine : String := "timestamp_ms,event_type,x,y,key_code\n"

/-- One CSV record as written by the loop in `CSVLogger::flushToDisk`:
`ofs << evt.timestamp << "," << evt.eventType << "," << evt.mousePos.x
<< "," << evt.mousePos.y << "," << evt.keyCode << "\n"`. -/
def eventRecord (e : InputEvent) : String :=
  toString e.timestamp ++ "," ++ e.eventType ++ "," ++ toString e.x ++ ","
    ++ toString e.y ++ "," ++ toString e.keyCode ++ "\n"

/-- The drain loop inside the locked section of `CSVLogger::flushToDisk`:
`while (!m_eventQueue.empty()) { localBuffer.push_back(m_eventQueue.front());
m_eventQueue.pop(); }` — moves the queue front-first into the local buffer. -/
def drainLoop : List InputEvent → List InputEvent → List InputEvent
  | [], localBuffer => localBuffer
  | e :: q, localBuffer => drainLoop q (localBuffer ++ [e])

/-- `CSVLogger::logEvent`: locks the queue mutex and pushes the event at
the tail.  No running-state guard. -/
def CSVLogger.logEvent (s : LoggerState) (e : InputEvent) : LoggerState :=
  { s with queue := s.queue ++ [e] }

/-- The locked section at the top of `CSVLogger::flushToDisk` — the
operation the specification calls `drainAll`: move every queued event
into a local buffer (front first) and leave the queue empty. -/
def drainAll (s : LoggerState) : List InputEvent × LoggerState :=
  (drainLoop s.queue [], { s with queue := [] })

/-- `CSVLogger::flushToDisk`: drain the whole queue into `localBuffer`
under the lock, return if the buffer is empty, otherwise open the file in
append mode (`openOk` says whether the open succeeds); on open failure
report to `cerr` and return (the drained events are dropped); on success
append one record per event in drained order. -/
def CSVLogger.flushToDisk (s : LoggerState) (openOk : Bool) : LoggerState :=
  let localBuffer := (drainAll s).1
  let s1 := (drainAll s).2
  if localBuffer.isEmpty then
    s1
  else if openOk = false then
    s1
  else
    { s1 with file := s1.file ++ localBuffer.map eventRecord }

/-- `CSVLogger::start`: return immediately if already running; otherwise
set `m_running` to true, open the file in truncate mode and write the
header (the open's success is `openOk`; the C++ code never checks it, so
on failure the truncation and header are silently lost), then launch the
background flush thread. -/
def CSVLogger.start (s : LoggerState) (openOk : Bool) : LoggerState :=
  if s.running then
    s
  else
    let s1 := { s with running := true }
    let s2 := if openOk then { s1 with file := [headerLine] } else s1
    { s2 with threads := s2.threads + 1 }

/-- `CSVLogger::stop`: return immediately if not running; otherwise clear
`m_running`, join the background flush thread, and perform one final
synchronous `flushToDisk` (whose append-mode open succeeds iff
`finalOpenOk`). -/
def CSVLogger.stop (s : LoggerState) (finalOpenOk : Bool) : LoggerState :=
  if s.running = false then
    s
  else
    let s1 := { s with running := false }
    let s2 := { s1 with threads := s1.threads - 1 }
    CSVLogger.flushToDisk s2 finalOpenOk

/-- `CSVLogger::~CSVLogger`: calls `stop()` iff the logger is still
running. -/
def CSVLogger.destroy (s : LoggerState) (finalOpenOk : Bool) : LoggerState :=
  if s.running then CSVLogger.stop s finalOpenOk else s

/-- Operations a client or the background loop may interleave between
`start` and `stop`: producers call `logEvent`, the background loop runs
drain-and-append cycles (each cycle's append-mode open succeeds iff its
`openOk`). -/
inductive Op where
  | log (e : InputEvent)
  | flushCycle (openOk : Bool)
  deriving Repr, DecidableEq

/-- Run a sequence of interleaved operations on a logger state. -/
def runOps (s : LoggerState) : List Op → LoggerState
  | [] => s
  | Op.log e :: ops => runOps (CSVLogger.logEvent s e) ops
  | Op.flushCycle ok :: ops => runOps (CSVLogger.flushToDisk s ok) ops

/-- The events logged by a sequence of operations, in order. -/
def loggedEvents : List Op → List InputEvent
  | [] => []
  | Op.log e :: ops => e :: loggedEvents ops
  | Op.flushCycle _ :: ops => loggedEvents ops

/-- Discrete-tick model of `CSVLogger::flushThreadFunc`:
`while (m_running.load()) { sleep_for(seconds(m_flushIntervalSec));
if (!m_running.load()) break; flushToDisk(); }`.
The `m_running` flag reads true exactly at ticks `t < signal` (the
`stop()` signal clears it at tick `signal`).  Each `sleep_for` advances
time by a full `interval` ticks during which the flag is never examined;
`flushToDisk` is instantaneous.  Returns the tick at which the loop
exits and the list of ticks at which `flushToDisk` ran.  `fuel` bounds
the number of iterations (any `fuel` large enough is exact). -/
def flushThreadLoop : Nat → Nat → Nat → Nat → Nat × List Nat
  | 0, _, _, t => (t, [])
  | fuel + 1, interval, signal, t =>
    if t < signal then
      if t + interval < signal then
        ((flushThreadLoop fuel interval signal (t + interval)).1,
          (t + interval) :: (flushThreadLoop fuel interval signal (t + interval)).2)
      else
        (t + interval, [])
    else
      (t, [])

/-! ## Helper lemmas (shared) -/

/-- The drain loop appends the queue, front first, after the accumulator. -/
theorem drainLoop_acc (q localBuffer : List InputEvent) :
    drainLoop q localBuffer = localBuffer ++ q := by
  induction q generalizing localBuffer with
  | nil => simp [drainLoop]
  | cons e q ih => simp [drainLoop, ih]

/-- Draining into an empty buffer yields exactly the queue in order. -/
theorem drainLoop_nil (q : List InputEvent) : drainLoop q [] = q := by
  simp [drainLoop_acc]

/-- A drain-and-append cycle whose append-mode open succeeds empties the
queue and appends one record per drained event, in drained order. -/
theorem flushToDisk_true (s : LoggerState) :
    CSVLogger.flushToDisk s true
      = { s with queue := [], file := s.file ++ s.queue.map eventRecord } := by
  unfold CSVLogger.flushToDisk drainAll
  rcases hq : s.queue with _ | ⟨e, q⟩ <;> simp [drainLoop_nil, hq]

/-- A drain-and-append cycle whose append-mode open fails empties the
queue and leaves everything else unchanged (the drained events are
dropped). -/
theorem flushToDisk_false (s : LoggerState) :
    CSVLogger.flushToDisk s false = { s with queue := [] } := by
  unfold CSVLogger.flushToDisk drainAll
  rcases hq : s.queue with _ | ⟨e, q⟩ <;> simp [drainLoop_nil, hq]

/-- Invariant of interleaved `logEvent` calls and successful flush
cycles: the file followed by the records of the still-queued events
equals the initial file followed by the records of the initially-queued
events and of every event logged, in order; the running flag and thread
count are untouched. -/
theorem runOps_spec (ops : List Op) (s : LoggerState)
    (hok : Op.flushCycle false ∉ ops) :
    (runOps s ops).file ++ (runOps s ops).queue.map eventRecord
        = s.file ++ (s.queue ++ loggedEvents ops).map eventRecord
      ∧ (runOps s ops).running = s.running
      ∧ (runOps s ops).threads = s.threads := by
  induction ops generalizing s with
  | nil => simp [runOps, loggedEvents]
  | cons op ops ih =>
    have hok2 : Op.flushCycle false ∉ ops := fun h => hok (List.mem_cons_of_mem _ h)
    cases op with
    | log e =>
      have h := ih (CSVLogger.logEvent s e) hok2
      simpa [runOps, loggedEvents, CSVLogger.logEvent] using h
    | flushCycle ok =>
      have hoktrue : ok = true := by
        cases ok
        · exact absurd (List.mem_cons_self _ _) hok
        · rfl
      subst hoktrue
      have h := ih (CSVLogger.flushToDisk s true) hok2
      rw [flushToDisk_true] at h
      simpa [runOps, loggedEvents, flushToDisk_true] using h

/-! ## Claim theorems -/

/-- Claim C4: for every queue state, `drainAll` removes and returns all
currently-queued events in FIFO enqueue order and leaves the queue
empty, with no event lost or duplicated (the returned sequence is
exactly the queue); an event just enqueued comes out last; and a second
`drainAll` immediately after, with no intervening enqueue, returns the
empty sequence. -/
theorem drainAll_fifo_complete (s : LoggerState) (e : InputEvent) :
    (drainAll s).1 = s.queue
      ∧ (drainAll s).2.queue = []
      ∧ (drainAll (CSVLogger.logEvent s e)).1 = s.queue ++ [e]
      ∧ (drainAll (drainAll s).2).1 = [] := by
  simp [drainAll, CSVLogger.logEvent, drainLoop_nil]

/-- Claim C7: when the append-mode open fails during a drain-and-append
cycle, the cycle is not fatal: the file is unchanged, the drained events
are dropped (the queue stays drained, nothing is re-enqueued), and a
subsequent cycle still flushes newly queued events. -/
theorem appendFailure_drops_batch_isolated (s : LoggerState) (e : InputEvent) :
    CSVLogger.flushToDisk s false = { s with queue := [] }
      ∧ (CSVLogger.flushToDisk
            (CSVLogger.logEvent (CSVLogger.flushToDisk s false) e) true).file
          = s.file ++ [eventRecord e]
      ∧ (CSVLogger.flushToDisk
            (CSVLogger.logEvent (CSVLogger.flushToDisk s false) e) true).queue
          = [] := by
  refine ⟨flushToDisk_false s, ?_, ?_⟩ <;>
    simp [flushToDisk_false, CSVLogger.logEvent, flushToDisk_true]

/-- Claim C8: a drain-and-append cycle that drains the empty sequence
returns without opening or modifying the backing-store file: the state
(file included) is unchanged, whatever the would-be open outcome. -/
theorem emptyDrain_leaves_file_untouched (s : LoggerState)
    (h : s.queue = []) :
    ∀ openOk : Bool, CSVLogger.flushToDisk s openOk = s := by
  intro openOk
  cases s
  cases h
  cases openOk <;> simp [flushToDisk_false, flushToDisk_true]

/-- Witness for C8 at a concrete state with an empty queue. -/
theorem emptyDrain_leaves_file_untouched_check :
    CSVLogger.flushToDisk ⟨true, [], [headerLine], 1⟩ false
        = ⟨true, [], [headerLine], 1⟩
      ∧ CSVLogger.flushToDisk ⟨true, [], [headerLine], 1⟩ true
        = ⟨true, [], [headerLine], 1⟩ :=
  ⟨emptyDrain_leaves_file_untouched ⟨true, [], [headerLine], 1⟩ rfl false,
   emptyDrain_leaves_file_untouched ⟨true, [], [headerLine], 1⟩ rfl true⟩

/-- Claim C9: `logEvent` appends the event at the queue's tail in every
sink state — there is no running-state guard, so the running flag and
the file are untouched and events logged while stopped accumulate. -/
theorem logEvent_unguarded_appends (s : LoggerState) (e e2 : InputEvent) :
    (CSVLogger.logEvent s e).queue = s.queue ++ [e]
      ∧ (CSVLogger.logEvent s e).running = s.running
      ∧ (CSVLogger.logEvent s e).file = s.file
      ∧ (CSVLogger.logEvent (CSVLogger.logEvent s e) e2).queue
          = s.queue ++ [e, e2] := by
  simp [CSVLogger.logEvent]

/-- Claim C5: `start` on a running sink is a no-op (no truncation, no
header rewrite, no second background task) and `stop` on a stopped sink
is a no-op (no error, no file write): in both cases the state is
returned unchanged. -/
theorem start_stop_idempotent (s : LoggerState) (openOk : Bool) :
    (s.running = true → CSVLogger.start s openOk = s)
      ∧ (s.running = false → CSVLogger.stop s openOk = s) := by
  constructor
  · intro h
    unfold CSVLogger.start
    rw [h]
    simp
  · intro h
    unfold CSVLogger.stop
    rw [h]
    simp

/-- Witness for C5: a second `start` on a running logger and a second
`stop` on a stopped logger both leave the concrete state unchanged. -/
theorem start_stop_idempotent_check :
    CSVLogger.start ⟨true, [], [headerLine], 1⟩ true
        = ⟨true, [], [headerLine], 1⟩
      ∧ CSVLogger.stop ⟨false, [], [headerLine], 0⟩ true
        = ⟨false, [], [headerLine], 0⟩ :=
  ⟨(start_stop_idempotent ⟨true, [], [headerLine], 1⟩ true).1 rfl,
   (start_stop_idempotent ⟨false, [], [headerLine], 0⟩ true).2 rfl⟩

/-- Claim C1: for any sequence of `logEvent` calls (interleaved with
successful background flush cycles) performed on a running sink,
`stop()` runs the final synchronous drain-and-append, so that once it
returns the backing store holds exactly its initial contents followed by
one record per enqueued event, in enqueue order, and the queue is empty
— no loss on clean shutdown. -/
theorem stop_persists_all_enqueued (s : LoggerState) (ops : List Op)
    (hrun : s.running = true) (hok : Op.flushCycle false ∉ ops) :
    (CSVLogger.stop (runOps s ops) true).file
        = s.file ++ (s.queue ++ loggedEvents ops).map eventRecord
      ∧ (CSVLogger.stop (runOps s ops) true).queue = [] := by
  obtain ⟨hfile, hrun2, -⟩ := runOps_spec ops s hok
  unfold CSVLogger.stop
  simp only [hrun2, hrun]
  simp [flushToDisk_true, hfile]

/-- Witness for C1: a running logger with one queued event, then a log,
a successful background flush and another log before `stop()`; after
`stop()` the file is the header plus all three records in order and the
queue is empty. -/
theorem stop_persists_all_enqueued_check :
    (CSVLogger.stop
          (runOps ⟨true, [⟨"MOUSE_POS", 7, 1, 2, 0⟩], [headerLine], 1⟩
            [Op.log ⟨"KEY_DOWN", 100, 5, 9, 81⟩, Op.flushCycle true,
              Op.log ⟨"KEY_UP", 130, 5, 9, 81⟩]) true).file
        = [headerLine]
            ++ ([⟨"MOUSE_POS", 7, 1, 2, 0⟩, ⟨"KEY_DOWN", 100, 5, 9, 81⟩,
                  ⟨"KEY_UP", 130, 5, 9, 81⟩] : List InputEvent).map eventRecord
      ∧ (CSVLogger.stop
            (runOps ⟨true, [⟨"MOUSE_POS", 7, 1, 2, 0⟩], [headerLine], 1⟩
              [Op.log ⟨"KEY_DOWN", 100, 5, 9, 81⟩, Op.flushCycle true,
                Op.log ⟨"KEY_UP", 130, 5, 9, 81⟩]) true).queue = [] :=
  stop_persists_all_enqueued ⟨true, [⟨"MOUSE_POS", 7, 1, 2, 0⟩], [headerLine], 1⟩
    [Op.log ⟨"KEY_DOWN", 100, 5, 9, 81⟩, Op.flushCycle true,
      Op.log ⟨"KEY_UP", 130, 5, 9, 81⟩] rfl (by decide)

/-- Claim C2, as stated, is false on the code: when the backing store
cannot be created/truncated, `start()` on a stopped sink does not leave
the engine stopped with no thread — `CSVLogger::start` never tests the
`ofstream`, so it sets the running flag and launches the background
thread regardless, and surfaces no error (it returns `void`).
Concretely, starting the stopped logger with the truncate-mode open
failing yields `running = true` with one background thread. -/
theorem start_openFailure_claim_refuted :
    ¬ ((CSVLogger.start ⟨false, [], ["stale\n"], 0⟩ false).running = false
        ∧ (CSVLogger.start ⟨false, [], ["stale\n"], 0⟩ false).threads = 0) := by
  decide

/-- Claim C2 (amended): if the backing store cannot be created/truncated
when `start()` is called on a stopped sink, `start()` does not fail and
surfaces no error: the truncation and header write are silently lost
(the file and queue keep their prior contents), yet the running flag is
set and one background thread is launched anyway. -/
theorem start_openFailure_ignored (s : LoggerState) (h : s.running = false) :
    CSVLogger.start s false
      = { s with running := true, threads := s.threads + 1 } := by
  unfold CSVLogger.start
  rw [h]
  simp

/-- Witness for the amended C2 at a concrete stopped logger with a stale
file: the failed `start` leaves the file as is but runs anyway. -/
theorem start_openFailure_ignored_check :
    CSVLogger.start ⟨false, [], ["stale\n"], 0⟩ false
      = ⟨true, [], ["stale\n"], 1⟩ :=
  start_openFailure_ignored ⟨false, [], ["stale\n"], 0⟩ rfl

/-- Claim C3, as stated, is false on the code: the background loop's
wait is a fixed full-interval `sleep_for` with the running flag polled
only afterward, not an interruptible wait.  Concretely, with a 10-tick
flush interval and the stop signal arriving at tick 1 (just after the
sleep began at tick 0), the loop exits only at tick 10, waiting out the
remaining nine ticks of the sleep instead of exiting at the signal. -/
theorem flushLoop_not_interruptible :
    (flushThreadLoop 5 10 1 0).1 = 10
      ∧ ¬ (flushThreadLoop 5 10 1 0).1 ≤ 1 := by
  decide

/-- Claim C3 (amended): after the stop signal the loop begins no new
drain-and-append iteration (every `flushToDisk` call happens strictly
before the signal tick) and exits within one full sleep interval of the
signal — it may wait out the remainder of the current fixed sleep, so
shutdown latency is bounded by the interval, not by the signal; when the
flag is already clear at a top-of-loop check the loop exits at once. -/
theorem flushLoop_exit_bounded (fuel interval signal t : Nat) :
    (t < signal →
        (flushThreadLoop fuel interval signal t).1 < signal + interval
          ∧ ∀ x ∈ (flushThreadLoop fuel interval signal t).2, x < signal)
      ∧ (signal ≤ t → flushThreadLoop fuel interval signal t = (t, [])) := by
  induction fuel generalizing t with
  | zero =>
    refine ⟨fun ht => ⟨?_, ?_⟩, fun ht => rfl⟩
    · simp only [flushThreadLoop]
      omega
    · intro x hx
      simp [flushThreadLoop] at hx
  | succ fuel ih =>
    refine ⟨fun ht => ?_, fun ht => ?_⟩
    · by_cases h1 : t + interval < signal
      · have hr := (ih (t + interval)).1 h1
        simp only [flushThreadLoop, if_pos ht, if_pos h1]
        refine ⟨hr.1, fun x hx => ?_⟩
        rcases List.mem_cons.mp hx with rfl | hx2
        · exact h1
        · exact hr.2 x hx2
      · simp only [flushThreadLoop, if_pos ht, if_neg h1]
        exact ⟨by omega, by simp⟩
    · simp only [flushThreadLoop, if_neg (Nat.not_lt.mpr ht)]

/-- Witness for the amended C3: with a 10-tick interval and the signal
at tick 25, a loop started at tick 0 exits before tick 35 and every
flush tick precedes the signal; a loop whose top-of-loop check already
sees the flag cleared (signal 5, current tick 7) exits immediately with
no flush. -/
theorem flushLoop_exit_bounded_check :
    ((flushThreadLoop 4 10 25 0).1 < 25 + 10
        ∧ ∀ x ∈ (flushThreadLoop 4 10 25 0).2, x < 25)
      ∧ flushThreadLoop 3 10 5 7 = (7, []) :=
  ⟨(flushLoop_exit_bounded 4 10 25 0).1 (by decide),
    (flushLoop_exit_bounded 3 10 5 7).2 (by decide)⟩

/-- Claim C6: a successful `start()` on a stopped sink truncates the
file and writes exactly the header line
`timestamp_ms,event_type,x,y,key_code` once; every flushed event becomes
one newline-terminated record of five comma-separated fields in the
order millisecond timestamp, event-kind tag, x, y, key/button code (the
code being 0 when not applicable), appended in drained order — as in the
concrete record for the event `{KEY_DOWN, 100, (5,9), 81}`. -/
theorem start_header_record_format (s : LoggerState) (e : InputEvent)
    (h : s.running = false) :
    (CSVLogger.start s true).file = ["timestamp_ms,event_type,x,y,key_code\n"]
      ∧ eventRecord e
          = toString e.timestamp ++ "," ++ e.eventType ++ ","
              ++ toString e.x ++ "," ++ toString e.y ++ ","
              ++ toString e.keyCode ++ "\n"
      ∧ (CSVLogger.flushToDisk s true).file = s.file ++ s.queue.map eventRecord
      ∧ eventRecord ⟨"KEY_DOWN", 100, 5, 9, 81⟩ = "100,KEY_DOWN,5,9,81\n" := by
  refine ⟨?_, rfl, ?_, ?_⟩
  · unfold CSVLogger.start
    rw [h]
    simp [headerLine]
  · simp [flushToDisk_true]
  · rfl

/-- Witness for C6: starting a concrete stopped logger writes exactly
the header, and the spec's sample event formats to the spec's sample
record. -/
theorem start_header_record_format_check :
    (CSVLogger.start ⟨false, [], [], 0⟩ true).file
        = ["timestamp_ms,event_type,x,y,key_code\n"]
      ∧ eventRecord ⟨"KEY_DOWN", 100, 5, 9, 81⟩ = "100,KEY_DOWN,5,9,81\n" := by
  have h := start_header_record_format ⟨false, [], [], 0⟩
      ⟨"KEY_DOWN", 100, 5, 9, 81⟩ rfl
  exact ⟨h.1, h.2.2.2⟩

/-- Claim C10: destroying a running logger invokes `stop()` from the
destructor — the background thread is joined and every event buffered at
destruction time is appended to the backing store before destruction
completes (given the final append-mode open succeeds) — while destroying
an already-stopped logger performs no flush and changes nothing. -/
theorem destructor_stops_and_flushes (s : LoggerState) :
    (s.running = true →
        CSVLogger.destroy s true = CSVLogger.stop s true
          ∧ (CSVLogger.destroy s true).file = s.file ++ s.queue.map eventRecord
          ∧ (CSVLogger.destroy s true).queue = []
          ∧ (CSVLogger.destroy s true).running = false
          ∧ (CSVLogger.destroy s true).threads = s.threads - 1)
      ∧ (s.running = false →
          ∀ finalOpenOk, CSVLogger.destroy s finalOpenOk = s) := by
  constructor
  · intro h
    have hd : CSVLogger.destroy s true = CSVLogger.stop s true := by
      unfold CSVLogger.destroy
      rw [h]
      simp
    have hs : CSVLogger.stop s true
        = { s with
              running := false
              threads := s.threads - 1
              queue := []
              file := s.file ++ s.queue.map eventRecord } := by
      unfold CSVLogger.stop
      simp only [h]
      simp [flushToDisk_true]
    rw [hd, hs]
    simp
  · intro h finalOpenOk
    unfold CSVLogger.destroy
    rw [h]
    simp

/-- Witness for C10: destroying a concrete running logger with one
buffered event flushes it and empties the queue; destroying a concrete
stopped logger changes nothing. -/
theorem destructor_stops_and_flushes_check :
    (CSVLogger.destroy ⟨true, [⟨"KEY_UP", 42, 3, 4, 9⟩], [headerLine], 1⟩
          true).file
        = [headerLine]
            ++ ([⟨"KEY_UP", 42, 3, 4, 9⟩] : List InputEvent).map eventRecord
      ∧ (CSVLogger.destroy ⟨true, [⟨"KEY_UP", 42, 3, 4, 9⟩], [headerLine], 1⟩
            true).queue = []
      ∧ CSVLogger.destroy ⟨false, [⟨"KEY_UP", 42, 3, 4, 9⟩], [headerLine], 0⟩
            false
        = ⟨false, [⟨"KEY_UP", 42, 3, 4, 9⟩], [headerLine], 0⟩ := by
  refine ⟨?_, ?_, ?_⟩
  · exact ((destructor_stops_and_flushes
      ⟨true, [⟨"KEY_UP", 42, 3, 4, 9⟩], [headerLine], 1⟩).1 rfl).2.1
  · exact ((destructor_stops_and_flushes
      ⟨true, [⟨"KEY_UP", 42, 3, 4, 9⟩], [headerLine], 1⟩).1 rfl).2.2.1
  · exact (destructor_stops_and_flushes
      ⟨false, [⟨"KEY_UP", 42, 3, 4, 9⟩], [headerLine], 0⟩).2 rfl false
